import Mathlib

/-!
A verification development for the event-parsing and device-correlation
pipeline of the usb-exporter program (usb-exporter.py).

Modelling conventions (shallow embedding):
* Python strings are Lean `String`; character classification (str.isdigit,
  str.split whitespace, str.lower, the \d regex class) is modelled on ASCII
  characters.  All concrete inputs used below are ASCII.
* Python exceptions are modelled with `Option`: a code path that raises an
  exception caught by an enclosing handler is a `none` (or a default value,
  matching what the handler does).
* The sysfs filesystem that `update_device_info` reads is modelled as data:
  a list of directory entries, each carrying an association list of readable
  leaf files and a directory listing used for driver discovery.
* Python float values (the parsed `speed` field) are represented
  symbolically by `PyNum`; the modelled code never performs float
  arithmetic on them, it only stores and compares them.
-/

set_option maxRecDepth 8000

/-- ASCII model of the whitespace characters recognised by Python
`str.split()` with no separator argument. -/
def wsChar (c : Char) : Bool :=
  c = ' ' || c = '\t' || c = '\n' || c = '\r' || c = '\x0b' || c = '\x0c'

/-- Fuel-driven worker for whitespace tokenisation (the fuel makes the
definition structurally recursive, hence kernel-reducible). -/
def wsTokAux : Nat → List Char → List (List Char)
  | 0, _ => []
  | Nat.succ fuel, l =>
    match l.dropWhile wsChar with
    | [] => []
    | c :: cs =>
      (c :: cs.takeWhile (fun x => !wsChar x)) ::
        wsTokAux fuel (cs.dropWhile (fun x => !wsChar x))

/-- Model of Python `line.strip().split()`: split on runs of whitespace,
discarding empty tokens (the leading `strip()` is a no-op with respect to
this splitting). -/
def pySplit (line : String) : List String :=
  (wsTokAux (line.data.length + 1) line.data).map String.mk

/-- Split a character list at every occurrence of `c`, keeping empty
fields, like Python `str.split(c)` with an explicit separator. -/
def splitOnCharAux (c : Char) : List Char → List (List Char)
  | [] => [[]]
  | x :: xs =>
    if x = c then [] :: splitOnCharAux c xs
    else
      match splitOnCharAux c xs with
      | g :: gs => (x :: g) :: gs
      | [] => [[x]]

/-- Model of Python `address.split(':')`. -/
def colonSplit (s : String) : List String :=
  (splitOnCharAux ':' s.data).map String.mk

/-- Value of an ASCII decimal digit. -/
def digitVal (c : Char) : Nat := c.toNat - '0'.toNat

/-- Value of a list of decimal digits, most significant first. -/
def digitsVal (l : List Char) : Nat :=
  l.foldl (fun acc c => acc * 10 + digitVal c) 0

/-- Fuel-driven digit expansion of a natural number (most significant
digit first). -/
def natDigitsAux : Nat → Nat → List Char
  | 0, _ => []
  | Nat.succ fuel, n =>
    if n = 0 then []
    else natDigitsAux fuel (n / 10) ++ [Char.ofNat (n % 10 + '0'.toNat)]

/-- Canonical decimal string of a natural number, as produced by Python
`str` on a non-negative `int`. -/
def natToDecStr (n : Nat) : String :=
  if n = 0 then "0" else String.mk (natDigitsAux (n + 1) n)

/-- Canonical decimal string of an integer, as produced by Python
`str(int(...))`. -/
def intToDecStr : Int → String
  | Int.ofNat n => natToDecStr n
  | Int.negSucc n => "-" ++ natToDecStr (n + 1)

/-- Helper for `uDigitsOk`: the tail of a digit group in which single
underscores may separate digits (Python numeric-literal underscores). -/
def uRest : List Char → Bool
  | [] => true
  | '_' :: c :: rest => c.isDigit && uRest (c :: rest)
  | '_' :: [] => false
  | c :: rest => c.isDigit && uRest rest

/-- A non-empty ASCII digit group, optionally with single underscores
between digits, as accepted by Python `int()` after the sign. -/
def uDigitsOk : List Char → Bool
  | [] => false
  | c :: rest => c.isDigit && uRest rest

/-- Model of Python `int(s)` on a whitespace-free token: an optional
single sign followed by digits (with optional underscore separators).
Returns `none` when `int()` would raise `ValueError`.  Non-ASCII digit
forms are not modelled. -/
def pyInt (s : String) : Option Int :=
  match s.data with
  | '+' :: rest =>
    if uDigitsOk rest then some (Int.ofNat (digitsVal (rest.filter (fun c => c ≠ '_')))) else none
  | '-' :: rest =>
    if uDigitsOk rest then some (-(Int.ofNat (digitsVal (rest.filter (fun c => c ≠ '_'))))) else none
  | l =>
    if uDigitsOk l then some (Int.ofNat (digitsVal (l.filter (fun c => c ≠ '_')))) else none

/-- Model of the numeric test `s.lstrip('-').isdigit()` used by the
data-length extraction: after removing all leading minus signs the token
is non-empty and all digits (ASCII model of `isdigit`). -/
def pyDigitTest (s : String) : Bool :=
  let t := s.data.dropWhile (fun c => c = '-')
  (!t.isEmpty) && t.all Char.isDigit

/-- Model of Python `int(s)` restricted to tokens that pass
`pyDigitTest`: the conversion succeeds exactly when at most one leading
minus sign is present; two or more raise `ValueError` (`none`). -/
def pyIntAfterTest (s : String) : Option Int :=
  let dashes := s.data.takeWhile (fun c => c = '-')
  let t := s.data.dropWhile (fun c => c = '-')
  if t.isEmpty || !t.all Char.isDigit then none
  else if 2 ≤ dashes.length then none
  else if dashes.length = 1 then some (-(Int.ofNat (digitsVal t)))
  else some (Int.ofNat (digitsVal t))

/-- The positional scan of the data-length extraction (source lines
122-128): walk the payload tokens; on a token passing the numeric test,
`int()` either raises `ValueError` (two or more leading minus signs),
which aborts the whole `try` block leaving the length 0, or yields a
value that is used when it lies in [0, 100000000) and skipped
otherwise. -/
def scanLen : List String → Int
  | [] => 0
  | t :: rest =>
    if pyDigitTest t then
      match pyIntAfterTest t with
      | none => 0
      | some v => if 0 ≤ v ∧ v < 100000000 then v else scanLen rest
    else scanLen rest

/-- The data-length extraction of `parse_usbmon_line` (source lines
116-130): when a literal "=" token is present, use the token before its
first occurrence if it passes the numeric test (a `ValueError` from
`int()` leaves 0); otherwise scan the tokens from index 5 onward. -/
def dataLengthExtract (parts : List String) : Int :=
  if "=" ∈ parts then
    let idx := parts.findIdx (fun t => t == "=")
    if 0 < idx then
      match parts.get? (idx - 1) with
      | some prev =>
        if pyDigitTest prev then
          match pyIntAfterTest prev with
          | some v => v
          | none => 0
        else 0
      | none => 0
    else 0
  else scanLen (parts.drop 5)

/-- A parsed usbmon event, the dictionary built by `parse_usbmon_line`. -/
structure Event where
  event_type : String
  bus : String
  device : String
  endpoint : String
  direction : String
  transfer_type : String
  status : String
  data_length : Int
deriving DecidableEq

/-- `get_transfer_type` (source lines 137-139). -/
def get_transfer_type (c : Char) : String :=
  if c = 'C' then "control"
  else if c = 'Z' then "isochronous"
  else if c = 'I' then "interrupt"
  else if c = 'B' then "bulk"
  else "unknown"

/-- `parse_usbmon_line` on an already-tokenised line (source lines
82-135).  `none` models every path on which the function returns `None`:
fewer than 6 tokens, fewer than 4 colon-separated address fields, a
`ValueError` from `int()` on the device field, and an `IndexError` from
indexing an empty type field (all caught by the enclosing handler). -/
def parseTokens (parts : List String) : Option Event :=
  if parts.length < 6 then none
  else
    match parts.get? 2, parts.get? 3, parts.get? 4 with
    | some event_type, some address, some status =>
      match colonSplit address with
      | direction_type :: busTok :: devTok :: endpointTok :: _ =>
        match pyInt devTok with
        | none => none
        | some dv =>
          match direction_type.data with
          | [] => none
          | c0 :: crest =>
            some {
              event_type := event_type
              bus := busTok
              device := intToDecStr dv
              endpoint := endpointTok
              direction :=
                match crest with
                | c1 :: _ => if c1 = 'i' then "in" else "out"
                | [] => "out"
              transfer_type := get_transfer_type c0
              status := status
              data_length := dataLengthExtract parts }
      | _ => none
    | _, _, _ => none

/-- `parse_usbmon_line` on a raw line. -/
def parse_usbmon_line (line : String) : Option Event :=
  parseTokens (pySplit line)

/-- Symbolic representation of the Python numeric values stored in the
device cache: plain integers, a successfully float-parsed literal (kept
symbolically; the modelled code never computes with it), or the 0.0
produced when `float()` raises `ValueError`. -/
inductive PyNum where
  | int : Int → PyNum
  | floatLit : String → PyNum
  | floatZero : PyNum
deriving DecidableEq

/-- A cached device dictionary as built by `update_device_info` (source
lines 200-213).  The Python placeholder dictionary returned on a cache
miss lacks the version/class_id/driver/bus/device keys, hence those
fields are `Option`-valued (`none` models an absent key). -/
structure DeviceRecord where
  vendor_id : String
  product_id : String
  vendor_name : String
  product_name : String
  serial : String
  version : Option String
  class_id : Option String
  driver : Option String
  speed : PyNum
  max_power : Int
  bus : Option String
  device : Option String
deriving DecidableEq

/-- The device cache `self.usb_devices`, keyed by the "bus:device"
string. -/
abbrev Store := String → Option DeviceRecord

/-- Python dictionary assignment `self.usb_devices[key] = record`. -/
def storeSet (st : Store) (k : String) (r : DeviceRecord) : Store :=
  fun q => if q = k then some r else st q

/-- The placeholder dictionary returned by `get_device_info` on a cache
miss (source lines 254-259). -/
def unknown_device : DeviceRecord where
  vendor_id := "unknown"
  product_id := "unknown"
  vendor_name := "unknown"
  product_name := "unknown"
  serial := "unknown"
  version := none
  class_id := none
  driver := none
  speed := PyNum.int 0
  max_power := 0
  bus := none
  device := none

/-- `get_device_info` (source lines 251-259). -/
def get_device_info (st : Store) (bus device : String) : DeviceRecord :=
  match st (bus ++ ":" ++ device) with
  | some r => r
  | none => unknown_device

/-- Label set of the byte counters `usb_data_sent_bytes` and
`usb_data_received_bytes`. -/
structure ByteLabels where
  bus : String
  device : String
  endpoint : String
  type : String
  vendor : String
  product : String
  serial : String
deriving DecidableEq

/-- Label set of the error counters `usb_transfer_errors_sent` and
`usb_transfer_errors_received`. -/
structure ErrorLabels where
  bus : String
  device : String
  endpoint : String
  type : String
  error_code : String
deriving DecidableEq

/-- The four monotonic counter families of the exporter, each a map from
a label tuple to its accumulated value. -/
structure Metrics where
  usb_data_sent_bytes : ByteLabels → Int
  usb_data_received_bytes : ByteLabels → Int
  usb_transfer_errors_sent : ErrorLabels → Int
  usb_transfer_errors_received : ErrorLabels → Int

/-- `counter.labels(...).inc(n)`: increment one labelled counter cell. -/
def incAt {α : Type} [DecidableEq α] (f : α → Int) (a : α) (n : Int) : α → Int :=
  fun x => if x = a then f x + n else f x

/-- The byte-counter label tuple built by `process_usbmon_data` for a
metered data transfer (source lines 295-313). -/
def byteLabel (st : Store) (p : Event) : ByteLabels where
  bus := p.bus
  device := p.device
  endpoint := p.endpoint
  type := p.transfer_type
  vendor := (get_device_info st p.bus p.device).vendor_name
  product := (get_device_info st p.bus p.device).product_name
  serial := (get_device_info st p.bus p.device).serial

/-- The error-counter label tuple built by `process_usbmon_data` for a
failed transfer (source lines 273-287). -/
def errLabel (p : Event) : ErrorLabels where
  bus := p.bus
  device := p.device
  endpoint := p.endpoint
  type := p.transfer_type
  error_code := p.status

/-- `process_usbmon_data` (source lines 261-313): parse the line, ignore
parse failures and non-completion events, count an error for a non-"0"
status, count bytes for a positive data length, and do nothing for a
zero-length success. -/
def process_usbmon_data (st : Store) (line : String) (m : Metrics) : Metrics :=
  match parse_usbmon_line line with
  | none => m
  | some p =>
    if p.event_type ≠ "C" then m
    else if p.status ≠ "0" then
      if p.direction = "out" then
        { m with usb_transfer_errors_sent :=
            incAt m.usb_transfer_errors_sent (errLabel p) 1 }
      else
        { m with usb_transfer_errors_received :=
            incAt m.usb_transfer_errors_received (errLabel p) 1 }
    else if 0 < p.data_length then
      if p.direction = "out" then
        { m with usb_data_sent_bytes :=
            incAt m.usb_data_sent_bytes (byteLabel st p) p.data_length }
      else
        { m with usb_data_received_bytes :=
            incAt m.usb_data_received_bytes (byteLabel st p) p.data_length }
    else m

/-- Model of Python `str.strip()` (ASCII whitespace). -/
def stripStr (s : String) : String :=
  String.mk (((s.data.dropWhile wsChar).reverse.dropWhile wsChar).reverse)

/-- `clean_string` (source lines 221-225): keep printable ASCII
characters, strip, and fall back to "unknown" when nothing is left. -/
def clean_string (text : String) : String :=
  if text = "unknown" ∨ text = "" then "unknown"
  else
    let cleaned :=
      stripStr (String.mk (text.data.filter
        (fun c => 0x20 ≤ c.toNat ∧ c.toNat ≤ 0x7E)))
    if cleaned = "" then "unknown" else cleaned

/-- ASCII model of Python `str.lower()`, used on the vendor/product id
strings. -/
def lowerStr (s : String) : String :=
  String.mk (s.data.map (fun c =>
    if 'A' ≤ c ∧ c ≤ 'Z' then Char.ofNat (c.toNat + 32) else c))

/-- Recogniser for a finite decimal float literal as accepted by Python
`float()` (optional sign, digits around an optional point, optional
exponent).  The inf/nan and underscore forms are not modelled; no
verified claim inspects a parsed speed value. -/
def optSign : List Char → List Char
  | '+' :: r => r
  | '-' :: r => r
  | l => l

/-- Exponent suffix of a float literal: empty, or e/E, optional sign and
at least one digit. -/
def floatExpOk : List Char → Bool
  | [] => true
  | c :: r =>
    (c = 'e' || c = 'E') &&
      (let r2 := optSign r
       (!r2.isEmpty) && r2.all Char.isDigit)

/-- Mantissa-and-exponent body of a float literal. -/
def floatBodyOk (l : List Char) : Bool :=
  let ip := l.takeWhile Char.isDigit
  let rest := l.dropWhile Char.isDigit
  match rest with
  | '.' :: r2 =>
    let fp := r2.takeWhile Char.isDigit
    let rest2 := r2.dropWhile Char.isDigit
    ((!ip.isEmpty) || (!fp.isEmpty)) && floatExpOk rest2
  | _ => (!ip.isEmpty) && floatExpOk rest

/-- Whether Python `float(s)` succeeds on the (finite decimal) strings
modelled here. -/
def pyFloatOk (s : String) : Bool :=
  floatBodyOk (optSign (stripStr s).data)

/-- `parse_speed` (source lines 237-241): `float(s)`, or 0.0 on
`ValueError`; the successfully parsed value is kept symbolically. -/
def parse_speed (s : String) : PyNum :=
  if pyFloatOk s then PyNum.floatLit s else PyNum.floatZero

/-- Substring test for "mA", as in `'mA' in power_str`. -/
def hasMA : List Char → Bool
  | [] => false
  | c :: rest =>
    (c = 'm' && (match rest with | c2 :: _ => c2 = 'A' | [] => false))
      || hasMA rest

/-- First maximal run of ASCII digits in a string, the `re.search`
of `parse_power`. -/
def firstDigitRun : List Char → Option Nat
  | [] => none
  | c :: rest =>
    if c.isDigit then some (digitsVal (c :: rest.takeWhile Char.isDigit))
    else firstDigitRun rest

/-- `parse_power` (source lines 243-249): an explicit "<N>mA" token
yields its first digit run; otherwise the raw value is a half-milliamp
count and is doubled; every failure (no digit run, `ValueError`) yields
0 via the bare handler. -/
def parse_power (s : String) : Int :=
  if hasMA s.data then
    match firstDigitRun s.data with
    | some n => Int.ofNat n
    | none => 0
  else
    match pyInt s with
    | some v => v * 2
    | none => 0

/-- One directory entry of /sys/bus/usb/devices in the filesystem model:
the entry name, the readable leaf files (absent or unreadable files are
simply missing from the list), and the directory listing used for driver
discovery, each item paired with the target of its driver symlink when
that link exists. -/
structure SysDevEntry where
  name : String
  files : List (String × String)
  items : List (String × Option String)
deriving DecidableEq

/-- `read_sysfs_file` (source lines 227-235): `none` models a missing or
unreadable file; a present file is read and stripped, and an empty
result also falls back to the default. -/
def read_sysfs_file (files : List (String × String)) (fname : String)
    (dflt : Option String) : Option String :=
  match files.find? (fun kv => kv.1 == fname) with
  | some kv =>
    let c := stripStr kv.2
    if c = "" then dflt else some c
  | none => dflt

/-- `read_sysfs_file` with a string default, the common call shape. -/
def read_sysfs_d (files : List (String × String)) (fname dflt : String) : String :=
  (read_sysfs_file files fname (some dflt)).getD dflt

/-- The interface-name pattern of `get_driver_name`: matched by the
names ending in a colon, a digit run, a dot and a digit run. -/
def ifaceNameMatch (s : String) : Bool :=
  let r := s.data.reverse
  let d2 := r.takeWhile Char.isDigit
  let r1 := r.dropWhile Char.isDigit
  (!d2.isEmpty) &&
    (match r1 with
     | '.' :: r2 =>
       let d1 := r2.takeWhile Char.isDigit
       let r3 := r2.dropWhile Char.isDigit
       (!d1.isEmpty) && (match r3 with | ':' :: _ => true | _ => false)
     | _ => false)

/-- `os.path.basename`: the part after the last slash. -/
def basename (s : String) : String :=
  String.mk ((s.data.reverse.takeWhile (fun c => c ≠ '/')).reverse)

/-- `get_driver_name` (source lines 141-157): the first listing item
that looks like an interface and carries a driver symlink names the
driver; otherwise "none". -/
def get_driver_name (items : List (String × Option String)) : String :=
  match items.find? (fun it => ifaceNameMatch it.1 && it.2.isSome) with
  | some it =>
    match it.2 with
    | some target => basename target
    | none => "none"
  | none => "none"

/-- The device-directory name pattern: a digit run, a dash, a digit run
and any number of dot-digit-run groups (fuel-driven tail check). -/
def dotGroupsAux : Nat → List Char → Bool
  | 0, l => l.isEmpty
  | Nat.succ fuel, l =>
    match l with
    | [] => true
    | '.' :: r =>
      let d := r.takeWhile Char.isDigit
      (!d.isEmpty) && dotGroupsAux fuel (r.dropWhile Char.isDigit)
    | _ => false

/-- Matcher for the hub-port device name pattern of the refresh loop. -/
def devNameMatch (s : String) : Bool :=
  let l := s.data
  let d1 := l.takeWhile Char.isDigit
  let r1 := l.dropWhile Char.isDigit
  (!d1.isEmpty) &&
    (match r1 with
     | '-' :: r2 =>
       let d2 := r2.takeWhile Char.isDigit
       (!d2.isEmpty) && dotGroupsAux (r2.length + 1) (r2.dropWhile Char.isDigit)
     | _ => false)

/-- Matcher for the root-hub name pattern usbN. -/
def usbNameMatch (s : String) : Bool :=
  match s.data with
  | 'u' :: 's' :: 'b' :: r => (!r.isEmpty) && r.all Char.isDigit
  | _ => false

/-- The per-device body of the refresh loop (source lines 166-216):
filter by name pattern, require readable numeric busnum/devnum (a
`ValueError` from `int()` is caught per device and skips it), and build
the cached record; every descriptive field falls back to its documented
default independently. -/
def processDevice (e : SysDevEntry) : Option (String × DeviceRecord) :=
  if !(devNameMatch e.name || usbNameMatch e.name) then none
  else
    match read_sysfs_file e.files "busnum" none,
          read_sysfs_file e.files "devnum" none with
    | some busC, some devC =>
      match pyInt busC, pyInt devC with
      | some bi, some di =>
        let bus_id := intToDecStr bi
        let dev_id := intToDecStr di
        some (bus_id ++ ":" ++ dev_id,
          { vendor_id := lowerStr (read_sysfs_d e.files "idVendor" "unknown")
            product_id := lowerStr (read_sysfs_d e.files "idProduct" "unknown")
            vendor_name := clean_string (read_sysfs_d e.files "manufacturer" "unknown")
            product_name := clean_string (read_sysfs_d e.files "product" "unknown")
            serial := read_sysfs_d e.files "serial" "unknown"
            version := some (read_sysfs_d e.files "version" "unknown")
            class_id := some (read_sysfs_d e.files "bDeviceClass" "00")
            driver := some (get_driver_name e.items)
            speed := parse_speed (read_sysfs_d e.files "speed" "0")
            max_power := parse_power (read_sysfs_d e.files "bMaxPower" "0")
            bus := some bus_id
            device := some dev_id })
      | _, _ => none
    | _, _ => none

/-- `update_device_info` (source lines 159-219).  The registry argument
is `none` when the devices path is missing (the early `return`) or when
enumerating it raises (the outer handler fires before any record is
written); in both cases the cache is returned untouched.  On a readable
registry every successfully processed device is upserted into the cache
one key at a time; nothing is ever removed. -/
def update_device_info (root : Option (List SysDevEntry)) (st : Store) : Store :=
  match root with
  | none => st
  | some entries =>
    entries.foldl
      (fun acc e =>
        match processDevice e with
        | some kr => storeSet acc kr.1 kr.2
        | none => acc)
      st

/-- Formalisation of the data-length extraction rule exactly as the spec
words it (claim C3): with a literal "=" token present, the token
immediately preceding its first occurrence is taken as the length if it
is numeric (has an integer value); otherwise the payload tokens from
index 5 onward are scanned left to right and the first token whose
integer value lies in [0, 100000000) is used; absent, 0. -/
def specDataLength (parts : List String) : Int :=
  if "=" ∈ parts then
    let idx := parts.findIdx (fun t => t == "=")
    if 0 < idx then
      match parts.get? (idx - 1) with
      | some prev =>
        match pyInt prev with
        | some v => v
        | none => 0
      | none => 0
    else 0
  else
    match (parts.drop 5).find?
        (fun t =>
          match pyInt t with
          | some v => decide (0 ≤ v ∧ v < 100000000)
          | none => false) with
    | some t =>
      match pyInt t with
      | some v => v
      | none => 0
    | none => 0

/-- The scan of the amended claim C3, written from the amended wording:
tokens failing the minus-stripped digit test are skipped; a passing
token with two or more leading minus signs stops the scan with 0; a
passing token whose value lies in [0, 100000000) supplies the length;
other passing tokens are skipped. -/
def amendedScan : List String → Int
  | [] => 0
  | t :: rest =>
    if pyDigitTest t then
      match pyIntAfterTest t with
      | none => 0
      | some v => if 0 ≤ v ∧ v < 100000000 then v else amendedScan rest
    else amendedScan rest

/-- The data-length extraction rule of the amended claim C3: the "="
branch takes the preceding token when it passes the minus-stripped digit
test and converts with at most one minus sign (possibly to a negative
value), and the payload scan is `amendedScan`. -/
def amendedDataLength (parts : List String) : Int :=
  if "=" ∈ parts then
    let idx := parts.findIdx (fun t => t == "=")
    if 0 < idx then
      match parts.get? (idx - 1) with
      | some prev =>
        if pyDigitTest prev then
          match pyIntAfterTest prev with
          | some v => v
          | none => 0
        else 0
      | none => 0
    else 0
  else amendedScan (parts.drop 5)

/-- The structural acceptance conditions of the parser: at least 6
tokens, an address token with at least 4 colon-separated fields, a
device field on which `int()` succeeds, and a non-empty type field. -/
def goodStructure (parts : List String) : Prop :=
  6 ≤ parts.length ∧
    ∃ a, parts.get? 3 = some a ∧
      ∃ d0 b dv ep rest, colonSplit a = d0 :: b :: dv :: ep :: rest ∧
        (∃ n, pyInt dv = some n) ∧ d0 ≠ ""

/-- A non-empty all-digit string: the loosest reading of "decimal
representation of a non-negative integer" (claim C8). -/
def isDecNat (s : String) : Bool :=
  (!s.data.isEmpty) && s.data.all Char.isDigit

/-- The empty device cache. -/
def emptyStore : Store := fun _ => none

/-- All-zero counter state. -/
def zeroMetrics : Metrics where
  usb_data_sent_bytes := fun _ => 0
  usb_data_received_bytes := fun _ => 0
  usb_transfer_errors_sent := fun _ => 0
  usb_transfer_errors_received := fun _ => 0

/-- Concrete successful completion line used for claim C1. -/
def c1line : String := "ab 12 C Ci:1:002:1 0 32"

/-- The event parsed from `c1line`. -/
def c1event : Event :=
  { event_type := "C", bus := "1", device := "2", endpoint := "1",
    direction := "in", transfer_type := "control", status := "0",
    data_length := 32 }

/-- Concrete failed completion line used for claim C2. -/
def c2line : String := "ab 12 C Bo:2:005:3 5 0"

/-- The event parsed from `c2line`. -/
def c2event : Event :=
  { event_type := "C", bus := "2", device := "5", endpoint := "3",
    direction := "out", transfer_type := "bulk", status := "5",
    data_length := 0 }

/-- Concrete line for claim C3: the payload token "--7" passes the
numeric test but fails `int()`, aborting the scan before "32". -/
def c3line : String := "a b C Ci:1:2:3 0 --7 32"

/-- The event parsed from `c3line` (length 0, not 32). -/
def c3event : Event :=
  { event_type := "C", bus := "1", device := "2", endpoint := "3",
    direction := "in", transfer_type := "control", status := "0",
    data_length := 0 }

/-- A distinctive cached record used in the claim C4 counterexample. -/
def c4rec : DeviceRecord :=
  { unknown_device with vendor_name := "stale-vendor", serial := "S1" }

/-- A cache holding `c4rec` for a device that the next refresh cycle
does not enumerate. -/
def c4store : Store := fun k => if k = "1:2" then some c4rec else none

/-- The record that a refresh cycle itself assigns to key `k`: the
record of the last entry in the cycle that successfully processes to
`k`, if any (a later write to the same key overwrites an earlier one,
as in repeated Python dictionary assignment). -/
def lastRecordFor : List SysDevEntry → String → Option DeviceRecord
  | [], _ => none
  | e :: es, k =>
    match lastRecordFor es k with
    | some r => some r
    | none =>
      match processDevice e with
      | some kr => if kr.1 = k then some kr.2 else none
      | none => none

/-- A concrete registry entry for the claim C4 witness: bus 1, device 2,
with a vendor id, manufacturer string, serial, speed, power and one
bound interface. -/
def c4dev : SysDevEntry where
  name := "1-1"
  files := [("busnum", "1"), ("devnum", "2"), ("idVendor", "ABCD"),
            ("manufacturer", "Acme"), ("serial", "SN4"), ("speed", "480"),
            ("bMaxPower", "100mA")]
  items := [("1-1:1.0", some "/sys/bus/usb/drivers/usbhid")]

/-- The record that `processDevice` builds from `c4dev`. -/
def c4newrec : DeviceRecord where
  vendor_id := "abcd"
  product_id := "unknown"
  vendor_name := "Acme"
  product_name := "unknown"
  serial := "SN4"
  version := some "unknown"
  class_id := some "00"
  driver := some "usbhid"
  speed := PyNum.floatLit "480"
  max_power := 100
  bus := some "1"
  device := some "2"

/-- A cache used by the claim C4 witness: a stale record under the key
"1:2" that `c4dev` re-enumerates, and another stale record under "3:4"
that the cycle does not touch. -/
def c4storeC : Store := fun k =>
  if k = "1:2" then some c4rec else if k = "3:4" then some c4rec else none

/-- Concrete line for claim C7: the token before "=" is "-5", giving a
negative parsed length. -/
def c7line : String := "a b C Ci:1:2:3 0 -5 = x"

/-- The event parsed from `c7line` (negative length). -/
def c7event : Event :=
  { event_type := "C", bus := "1", device := "2", endpoint := "3",
    direction := "in", transfer_type := "control", status := "0",
    data_length := -5 }

/-- Concrete line for claim C8: the bus field "xyz" is not numeric and
the device field is negative, yet the line parses. -/
def c8line : String := "a b C Ci:xyz:-5:3 0 32"

/-- The event parsed from `c8line`. -/
def c8event : Event :=
  { event_type := "C", bus := "xyz", device := "-5", endpoint := "3",
    direction := "in", transfer_type := "control", status := "0",
    data_length := 32 }

/-- A cached record used in the claim C9 witness. -/
def c9rec : DeviceRecord :=
  { unknown_device with
      vendor_name := "acme"
      product_name := "widget"
      serial := "SN9" }

/-- A cache hitting on key "1:2", for the claim C9 witness. -/
def c9store : Store := fun k => if k = "1:2" then some c9rec else none

/-- Concrete line for claim C10: 6 tokens, 4 address fields, but the
device field "xx" defeats `int()`. -/
def c10line : String := "a b C Ci:1:xx:3 0 32"

theorem get?_isSome_of_len {l : List String} {i : Nat} (h : i < l.length) :
    ∃ x, l.get? i = some x := by
  cases hx : l.get? i with
  | some v => exact ⟨v, rfl⟩
  | none => exact absurd (List.get?_eq_none.mp hx) (by omega)

/-- C5: when the registry root is inaccessible (the devices path is
missing, or enumerating it raises before any record is written), the
refresh returns with the device cache untouched: every previously
cached record is intact. -/
theorem c5_root_failure_keeps_store (st : Store) :
    update_device_info none st = st := rfl

/-- C9: metadata lookup is total; a missing (bus, device) key yields the
documented placeholder record (vendor/product/serial "unknown", speed
and power 0) and a present key yields the cached record. -/
theorem c9_lookup_total (st : Store) (bus device : String) :
    (st (bus ++ ":" ++ device) = none →
      get_device_info st bus device = unknown_device ∧
      (get_device_info st bus device).vendor_name = "unknown" ∧
      (get_device_info st bus device).product_name = "unknown" ∧
      (get_device_info st bus device).serial = "unknown" ∧
      (get_device_info st bus device).vendor_id = "unknown" ∧
      (get_device_info st bus device).product_id = "unknown" ∧
      (get_device_info st bus device).speed = PyNum.int 0 ∧
      (get_device_info st bus device).max_power = 0) ∧
    (∀ r, st (bus ++ ":" ++ device) = some r →
      get_device_info st bus device = r) := by
  constructor
  · intro h
    unfold get_device_info
    rw [h]
    exact ⟨rfl, rfl, rfl, rfl, rfl, rfl, rfl, rfl⟩
  · intro r h
    unfold get_device_info
    rw [h]

theorem c9_lookup_total_witness :
    get_device_info emptyStore "1" "2" = unknown_device ∧
    get_device_info c9store "1" "2" = c9rec :=
  ⟨((c9_lookup_total emptyStore "1" "2").1 rfl).1,
    (c9_lookup_total c9store "1" "2").2 c9rec (by decide)⟩

/-- C4 counterexample: a refresh cycle that completes successfully while
enumerating no devices leaves a previously cached record for a
no-longer-present device in the store, contradicting the claimed
wholesale replacement ("records for devices no longer present in the
registry are gone"). -/
theorem c4_counterexample :
    ¬ (update_device_info (some []) c4store "1:2" = none) := by
  intro h
  rw [show update_device_info (some []) c4store "1:2" = some c4rec from rfl] at h
  exact Option.noConfusion h

theorem lastRecordFor_spec (entries : List SysDevEntry) (st : Store) (k : String) :
    update_device_info (some entries) st k =
      match lastRecordFor entries k with
      | some r => some r
      | none => st k := by
  induction entries generalizing st with
  | nil => rfl
  | cons e es ih =>
    have hfold : update_device_info (some (e :: es)) st =
        update_device_info (some es)
          (match processDevice e with
           | some kr => storeSet st kr.1 kr.2
           | none => st) := by
      simp only [update_device_info, List.foldl_cons]
    rw [hfold, ih]
    cases hl : lastRecordFor es k with
    | some r => simp [lastRecordFor, hl]
    | none =>
      simp only [lastRecordFor, hl]
      cases hpe : processDevice e with
      | none => rfl
      | some kr =>
        rcases kr with ⟨k', r'⟩
        by_cases hk : k' = k
        · simp [storeSet, hk]
        · simp [storeSet, hk, Ne.symm hk]

theorem lastRecordFor_mem (entries : List SysDevEntry) (k : String) (r : DeviceRecord)
    (h : lastRecordFor entries k = some r) :
    ∃ e, e ∈ entries ∧ processDevice e = some (k, r) := by
  induction entries with
  | nil => exact absurd h (by simp [lastRecordFor])
  | cons e es ih =>
    unfold lastRecordFor at h
    cases hl : lastRecordFor es k with
    | some r0 =>
      rw [hl] at h
      injection h with h'
      subst h'
      obtain ⟨e', he', hpe'⟩ := ih hl
      exact ⟨e', List.mem_cons_of_mem _ he', hpe'⟩
    | none =>
      rw [hl] at h
      cases hpe : processDevice e with
      | none =>
        rw [hpe] at h
        exact absurd h (by simp)
      | some kr =>
        rw [hpe] at h
        rcases kr with ⟨k', r'⟩
        have h' : (if k' = k then some r' else none) = some r := h
        by_cases hk : k' = k
        · rw [if_pos hk] at h'
          injection h' with h''
          subst h''
          exact ⟨e, List.mem_cons_self _ _, by rw [hpe, hk]⟩
        · rw [if_neg hk] at h'
          exact absurd h' (by simp)

theorem lastRecordFor_isSome (k : String) (e : SysDevEntry) (r : DeviceRecord)
    (hpe : processDevice e = some (k, r)) :
    ∀ entries : List SysDevEntry, e ∈ entries →
      ∃ r', lastRecordFor entries k = some r' := by
  intro entries
  induction entries with
  | nil =>
    intro he
    exact absurd he (List.not_mem_nil e)
  | cons e0 es ih =>
    intro he
    unfold lastRecordFor
    cases hl : lastRecordFor es k with
    | some r0 => exact ⟨r0, rfl⟩
    | none =>
      rcases List.mem_cons.mp he with rfl | hes
      · rw [hpe]
        exact ⟨r, by simp⟩
      · obtain ⟨r', hr'⟩ := ih hes
        rw [hl] at hr'
        exact absurd hr' (by simp)

/-- C4 amended: a successful refresh cycle upserts exactly one record
per device successfully enumerated in that cycle and leaves every other
cached record unchanged.  Concretely: afterwards each key holds the
record of the last entry of the cycle that processed to it
(`lastRecordFor`), falling back to the prior cache for keys the cycle
did not write; every record the cycle assigns comes from one of its
entries; every enumerated device has its record present afterwards; and
records for devices not enumerated (stale devices included) persist
unchanged — the store is never replaced wholesale. -/
theorem c4_amended (entries : List SysDevEntry) (st : Store) (k : String) :
    (update_device_info (some entries) st k =
      match lastRecordFor entries k with
      | some r => some r
      | none => st k) ∧
    (∀ r, lastRecordFor entries k = some r →
      ∃ e, e ∈ entries ∧ processDevice e = some (k, r)) ∧
    (∀ e r, e ∈ entries → processDevice e = some (k, r) →
      ∃ r', lastRecordFor entries k = some r' ∧
        update_device_info (some entries) st k = some r') ∧
    ((∀ e, e ∈ entries → ∀ r, processDevice e ≠ some (k, r)) →
      update_device_info (some entries) st k = st k) := by
  refine ⟨lastRecordFor_spec entries st k,
    fun r h => lastRecordFor_mem entries k r h, ?_, ?_⟩
  · intro e r he hpe
    obtain ⟨r', hr'⟩ := lastRecordFor_isSome k e r hpe entries he
    exact ⟨r', hr', by rw [lastRecordFor_spec entries st k, hr']⟩
  · intro h
    rw [lastRecordFor_spec entries st k]
    cases hl : lastRecordFor entries k with
    | none => rfl
    | some r =>
      obtain ⟨e, he, hpe⟩ := lastRecordFor_mem entries k r hl
      exact absurd hpe (h e he r)

theorem c4_amended_witness :
    processDevice c4dev = some ("1:2", c4newrec) ∧
    update_device_info (some [c4dev]) c4storeC "1:2" = some c4newrec ∧
    (∃ e, e ∈ [c4dev] ∧ processDevice e = some ("1:2", c4newrec)) ∧
    (∃ r', lastRecordFor [c4dev] "1:2" = some r' ∧
      update_device_info (some [c4dev]) c4storeC "1:2" = some r') ∧
    update_device_info (some [c4dev]) c4storeC "3:4" = some c4rec := by
  have hpd : processDevice c4dev = some ("1:2", c4newrec) := by decide
  have hno : ∀ e, e ∈ [c4dev] → ∀ r, processDevice e ≠ some ("3:4", r) := by
    intro e he r hcontra
    have he' : e = c4dev := List.mem_singleton.mp he
    subst he'
    rw [hpd] at hcontra
    injection hcontra with h
    have hks : ("1:2" : String) = "3:4" := congrArg Prod.fst h
    exact absurd hks (by decide)
  refine ⟨hpd, ?_, ?_, ?_, ?_⟩
  · exact ((c4_amended [c4dev] c4storeC "1:2").1).trans (by decide)
  · exact (c4_amended [c4dev] c4storeC "1:2").2.1 c4newrec (by decide)
  · exact (c4_amended [c4dev] c4storeC "1:2").2.2.1 c4dev c4newrec
      (List.mem_singleton.mpr rfl) hpd
  · exact ((c4_amended [c4dev] c4storeC "3:4").2.2.2 hno).trans (by decide)

/-- C6: a line with fewer than 6 whitespace tokens, or whose fourth
token has fewer than 4 colon-separated fields, is always rejected by the
parser: no Event value is produced at all. -/
theorem c6_malformed (line : String)
    (h : (pySplit line).length < 6 ∨
      ∃ a, (pySplit line).get? 3 = some a ∧ (colonSplit a).length < 4) :
    parse_usbmon_line line = none := by
  unfold parse_usbmon_line parseTokens
  rcases h with h6 | ⟨a, h3, hlen⟩
  · rw [if_pos h6]
  · by_cases h6 : (pySplit line).length < 6
    · rw [if_pos h6]
    · rw [if_neg h6]
      push_neg at h6
      obtain ⟨et, h2⟩ := get?_isSome_of_len (show 2 < (pySplit line).length by omega)
      obtain ⟨stt, h4⟩ := get?_isSome_of_len (show 4 < (pySplit line).length by omega)
      simp only [h2, h3, h4]
      rcases hc : colonSplit a with _ | ⟨x, _ | ⟨y, _ | ⟨z, _ | ⟨w, t⟩⟩⟩⟩
      · rfl
      · rfl
      · rfl
      · rfl
      · rw [hc] at hlen
        simp only [List.length_cons] at hlen
        omega

theorem c6_malformed_witness :
    ((pySplit "a b c").length < 6 ∨
      ∃ a, (pySplit "a b c").get? 3 = some a ∧ (colonSplit a).length < 4) ∧
    parse_usbmon_line "a b c" = none :=
  ⟨Or.inl (by decide), c6_malformed "a b c" (Or.inl (by decide))⟩

/-- C10: the malformed-line conditions of the spec are sufficient but
not necessary for rejection: a line with at least 6 tokens and at least
4 colon-separated address fields is still silently dropped whenever the
third colon field (the device field) defeats integer conversion. -/
theorem c10_device_field_failure :
    (∃ line, 6 ≤ (pySplit line).length ∧
      (∃ a, (pySplit line).get? 3 = some a ∧ 4 ≤ (colonSplit a).length) ∧
      parse_usbmon_line line = none) ∧
    (∀ line a d0 b dv ep rest,
      (pySplit line).get? 3 = some a →
      colonSplit a = d0 :: b :: dv :: ep :: rest →
      pyInt dv = none →
      parse_usbmon_line line = none) := by
  constructor
  · exact ⟨c10line, by decide, ⟨"Ci:1:xx:3", by decide, by decide⟩, by decide⟩
  · intro line a d0 b dv ep rest h3 hc hpy
    unfold parse_usbmon_line parseTokens
    by_cases h6 : (pySplit line).length < 6
    · rw [if_pos h6]
    · rw [if_neg h6]
      push_neg at h6
      obtain ⟨et, h2⟩ := get?_isSome_of_len (show 2 < (pySplit line).length by omega)
      obtain ⟨stt, h4⟩ := get?_isSome_of_len (show 4 < (pySplit line).length by omega)
      simp only [h2, h3, h4, hc, hpy]

theorem c10_device_field_failure_witness :
    parse_usbmon_line "q r C Ci:7:zz:1 0 9" = none :=
  c10_device_field_failure.2 "q r C Ci:7:zz:1 0 9" "Ci:7:zz:1"
    "Ci" "7" "zz" "1" [] (by decide) (by decide) (by decide)

theorem parse_some_inv (line : String) (p : Event)
    (hp : parse_usbmon_line line = some p) :
    ∃ et a stt d0 b dv ep rest n,
      (pySplit line).get? 2 = some et ∧
      (pySplit line).get? 3 = some a ∧
      (pySplit line).get? 4 = some stt ∧
      colonSplit a = d0 :: b :: dv :: ep :: rest ∧
      pyInt dv = some n ∧ d0 ≠ "" ∧
      p.event_type = et ∧ p.bus = b ∧ p.device = intToDecStr n ∧
      p.endpoint = ep ∧ p.status = stt ∧
      (p.direction = "in" ∨ p.direction = "out") ∧
      p.data_length = dataLengthExtract (pySplit line) := by
  unfold parse_usbmon_line parseTokens at hp
  split at hp
  · exact absurd hp (by simp)
  · split at hp <;> try exact absurd hp (by simp)
    rename_i et a stt h2 h3 h4
    split at hp <;> try exact absurd hp (by simp)
    rename_i d0 b dv ep rest hc
    split at hp
    · exact absurd hp (by simp)
    rename_i n hpy
    split at hp
    · exact absurd hp (by simp)
    rename_i c0 cr hd0
    injection hp with h
    subst h
    refine ⟨et, a, stt, d0, b, dv, ep, rest, n, h2, h3, h4, hc, hpy, ?_,
      rfl, rfl, rfl, rfl, rfl, ?_, rfl⟩
    · intro hs
      rw [hs] at hd0
      exact absurd hd0 (by simp [String.data])
    · cases cr with
      | nil => exact Or.inr rfl
      | cons c1 ct =>
        by_cases hi : c1 = 'i'
        · exact Or.inl (by simp [hi])
        · exact Or.inr (by simp [hi])

theorem scanLen_eq_amendedScan (l : List String) : scanLen l = amendedScan l := by
  induction l with
  | nil => rfl
  | cons t rest ih =>
    unfold scanLen amendedScan
    rw [ih]

theorem dataLengthExtract_eq_amended (parts : List String) :
    dataLengthExtract parts = amendedDataLength parts := by
  unfold dataLengthExtract amendedDataLength
  rw [scanLen_eq_amendedScan]

theorem scanLen_bounds (l : List String) :
    0 ≤ scanLen l ∧ scanLen l < 100000000 := by
  induction l with
  | nil => exact ⟨le_refl 0, by norm_num [scanLen]⟩
  | cons t rest ih =>
    unfold scanLen
    split
    · split
      · exact ⟨le_refl 0, by norm_num⟩
      · split
        · rename_i h3
          exact h3
        · exact ih
    · exact ih

/-- C1: a parsed completion event with status "0" and positive data
length increments exactly one byte counter, by exactly the data length,
at the label built from bus/device/endpoint/transfer kind plus the
vendor/product/serial of the metadata lookup; the opposite-direction
byte counter and both error counters are untouched. -/
theorem c1_success_bytes (st : Store) (line : String) (m : Metrics) (p : Event)
    (hp : parse_usbmon_line line = some p)
    (hC : p.event_type = "C") (hS : p.status = "0") (hL : 0 < p.data_length) :
    (process_usbmon_data st line m).usb_transfer_errors_sent
        = m.usb_transfer_errors_sent ∧
    (process_usbmon_data st line m).usb_transfer_errors_received
        = m.usb_transfer_errors_received ∧
    (p.direction = "out" →
      (process_usbmon_data st line m).usb_data_sent_bytes (byteLabel st p)
          = m.usb_data_sent_bytes (byteLabel st p) + p.data_length ∧
      (∀ l, l ≠ byteLabel st p →
        (process_usbmon_data st line m).usb_data_sent_bytes l
            = m.usb_data_sent_bytes l) ∧
      (process_usbmon_data st line m).usb_data_received_bytes
          = m.usb_data_received_bytes) ∧
    (p.direction = "in" →
      (process_usbmon_data st line m).usb_data_received_bytes (byteLabel st p)
          = m.usb_data_received_bytes (byteLabel st p) + p.data_length ∧
      (∀ l, l ≠ byteLabel st p →
        (process_usbmon_data st line m).usb_data_received_bytes l
            = m.usb_data_received_bytes l) ∧
      (process_usbmon_data st line m).usb_data_sent_bytes
          = m.usb_data_sent_bytes) := by
  have hm : process_usbmon_data st line m =
      (if p.direction = "out" then
        { m with usb_data_sent_bytes :=
            incAt m.usb_data_sent_bytes (byteLabel st p) p.data_length }
      else
        { m with usb_data_received_bytes :=
            incAt m.usb_data_received_bytes (byteLabel st p) p.data_length }) := by
    unfold process_usbmon_data
    rw [hp]
    simp [hC, hS, hL]
  by_cases hd : p.direction = "out"
  · rw [hm, if_pos hd]
    refine ⟨rfl, rfl, fun _ => ⟨?_, ?_, rfl⟩,
      fun hin => absurd (hd.symm.trans hin) (by decide)⟩
    · simp [incAt]
    · intro l hl
      simp [incAt, hl]
  · rw [hm, if_neg hd]
    refine ⟨rfl, rfl, fun hout => absurd hout hd, fun _ => ⟨?_, ?_, rfl⟩⟩
    · simp [incAt]
    · intro l hl
      simp [incAt, hl]

theorem c1_success_bytes_witness :
    parse_usbmon_line c1line = some c1event ∧
    (process_usbmon_data emptyStore c1line zeroMetrics).usb_data_received_bytes
        (byteLabel emptyStore c1event)
      = zeroMetrics.usb_data_received_bytes (byteLabel emptyStore c1event)
          + c1event.data_length := by
  refine ⟨by decide, ?_⟩
  exact ((c1_success_bytes emptyStore c1line zeroMetrics c1event (by decide)
    (by decide) (by decide) (by decide)).2.2.2 (by decide)).1

/-- C2: a parsed completion event with non-"0" status increments exactly
one error counter by 1, at the label built from bus/device/endpoint/
transfer kind/status, the direction selecting sent versus received; no
byte counter changes. -/
theorem c2_error_counter (st : Store) (line : String) (m : Metrics) (p : Event)
    (hp : parse_usbmon_line line = some p)
    (hC : p.event_type = "C") (hS : p.status ≠ "0") :
    (process_usbmon_data st line m).usb_data_sent_bytes
        = m.usb_data_sent_bytes ∧
    (process_usbmon_data st line m).usb_data_received_bytes
        = m.usb_data_received_bytes ∧
    (p.direction = "out" →
      (process_usbmon_data st line m).usb_transfer_errors_sent (errLabel p)
          = m.usb_transfer_errors_sent (errLabel p) + 1 ∧
      (∀ l, l ≠ errLabel p →
        (process_usbmon_data st line m).usb_transfer_errors_sent l
            = m.usb_transfer_errors_sent l) ∧
      (process_usbmon_data st line m).usb_transfer_errors_received
          = m.usb_transfer_errors_received) ∧
    (p.direction = "in" →
      (process_usbmon_data st line m).usb_transfer_errors_received (errLabel p)
          = m.usb_transfer_errors_received (errLabel p) + 1 ∧
      (∀ l, l ≠ errLabel p →
        (process_usbmon_data st line m).usb_transfer_errors_received l
            = m.usb_transfer_errors_received l) ∧
      (process_usbmon_data st line m).usb_transfer_errors_sent
          = m.usb_transfer_errors_sent) := by
  have hm : process_usbmon_data st line m =
      (if p.direction = "out" then
        { m with usb_transfer_errors_sent :=
            incAt m.usb_transfer_errors_sent (errLabel p) 1 }
      else
        { m with usb_transfer_errors_received :=
            incAt m.usb_transfer_errors_received (errLabel p) 1 }) := by
    unfold process_usbmon_data
    rw [hp]
    simp [hC, hS]
  by_cases hd : p.direction = "out"
  · rw [hm, if_pos hd]
    refine ⟨rfl, rfl, fun _ => ⟨?_, ?_, rfl⟩,
      fun hin => absurd (hd.symm.trans hin) (by decide)⟩
    · simp [incAt]
    · intro l hl
      simp [incAt, hl]
  · rw [hm, if_neg hd]
    refine ⟨rfl, rfl, fun hout => absurd hout hd, fun _ => ⟨?_, ?_, rfl⟩⟩
    · simp [incAt]
    · intro l hl
      simp [incAt, hl]

theorem c2_error_counter_witness :
    parse_usbmon_line c2line = some c2event ∧
    (process_usbmon_data emptyStore c2line zeroMetrics).usb_transfer_errors_sent
        (errLabel c2event)
      = zeroMetrics.usb_transfer_errors_sent (errLabel c2event) + 1 := by
  refine ⟨by decide, ?_⟩
  exact ((c2_error_counter emptyStore c2line zeroMetrics c2event (by decide)
    (by decide) (by decide)).2.2.1 (by decide)).1

/-- C3 counterexample: on the line `c3line` the payload token "--7"
passes the numeric test, `int()` raises, and the scan aborts with 0,
while the claimed rule ("the first integer-valued token in range is
used") yields 32. -/
theorem c3_counterexample :
    ¬ (∀ line p, parse_usbmon_line line = some p →
        p.data_length = specDataLength (pySplit line)) := by
  intro h
  have hx := h c3line c3event (by decide)
  revert hx
  decide

/-- C3 amended: length extraction follows the spec rule with two
changes forced by the code: the numeric test is the minus-stripped digit
test (so a token with two or more leading minus signs passing it aborts
the scan with 0, and the "="-preceding token may convert to a negative
length), and tokens rejected by `int()` despite passing the test yield 0
rather than being skipped.  A missing length still never by itself makes
the parse fail: acceptance is decided by the structural conditions
alone. -/
theorem c3_amended :
    (∀ line p, parse_usbmon_line line = some p →
      p.data_length = amendedDataLength (pySplit line)) ∧
    (∀ line, goodStructure (pySplit line) →
      ∃ p, parse_usbmon_line line = some p) := by
  constructor
  · intro line p hp
    obtain ⟨et, a, stt, d0, b, dv, ep, rest, n, h2, h3, h4, hc, hpy, hd0,
      hET, hB, hD, hEP, hST, hDIR, hDL⟩ := parse_some_inv line p hp
    rw [hDL, dataLengthExtract_eq_amended]
  · intro line hgs
    obtain ⟨h6, a, h3, d0, b, dv, ep, rest, hc, ⟨n, hpy⟩, hd0⟩ := hgs
    obtain ⟨et, h2⟩ := get?_isSome_of_len
      (show 2 < (pySplit line).length by omega)
    obtain ⟨stt, h4⟩ := get?_isSome_of_len
      (show 4 < (pySplit line).length by omega)
    unfold parse_usbmon_line parseTokens
    rw [if_neg (by omega)]
    simp only [h2, h3, h4, hc, hpy]
    cases hdd : d0.data with
    | nil =>
      refine absurd ?_ hd0
      cases d0 with
      | mk l =>
        simp only [String.data] at hdd
        rw [hdd]
    | cons c0 cr => exact ⟨_, rfl⟩

theorem c3_amended_witness :
    parse_usbmon_line c3line = some c3event ∧
    c3event.data_length = amendedDataLength (pySplit c3line) ∧
    (∃ p, parse_usbmon_line c3line = some p) :=
  ⟨by decide, c3_amended.1 c3line c3event (by decide),
    c3_amended.2 c3line ⟨by decide, "Ci:1:2:3", by decide,
      "Ci", "1", "2", "3", [], by decide, ⟨2, by decide⟩, by decide⟩⟩

/-- C7 counterexample: the line `c7line` parses successfully with
data_length = -5, produced by the "="-marker branch from the token
"-5". -/
theorem c7_counterexample :
    ¬ (∀ line p, parse_usbmon_line line = some p → 0 ≤ p.data_length) := by
  intro h
  have hx := h c7line c7event (by decide)
  revert hx
  decide

/-- C7 amended: for accepted lines with no "=" token the data length is
produced by the guarded positional scan and lies in [0, 100000000); the
"="-marker branch alone can yield a negative value. -/
theorem c7_amended (line : String) (p : Event)
    (hp : parse_usbmon_line line = some p) (hne : "=" ∉ pySplit line) :
    0 ≤ p.data_length ∧ p.data_length < 100000000 := by
  obtain ⟨et, a, stt, d0, b, dv, ep, rest, n, h2, h3, h4, hc, hpy, hd0,
    hET, hB, hD, hEP, hST, hDIR, hDL⟩ := parse_some_inv line p hp
  rw [hDL]
  unfold dataLengthExtract
  rw [if_neg hne]
  exact scanLen_bounds _

theorem c7_amended_witness :
    ("=" ∉ pySplit c1line) ∧
    0 ≤ c1event.data_length ∧ c1event.data_length < 100000000 :=
  ⟨by decide, c7_amended c1line c1event (by decide) (by decide)⟩

/-- C8 counterexample: the line `c8line` parses successfully although
its bus field is the non-numeric string "xyz" (and its device field is
negative): the parser validates neither non-negativity nor, for the bus,
numericity at all. -/
theorem c8_counterexample :
    ¬ (∀ line p, parse_usbmon_line line = some p →
        isDecNat p.bus = true ∧ isDecNat p.device = true) := by
  intro h
  have hx := h c8line c8event (by decide)
  revert hx
  decide

/-- C8 amended: for every accepted line the device field of the Event
is the canonical decimal string of some integer (possibly negative),
while the bus field is the second colon field of the address token
copied verbatim, with no validation. -/
theorem c8_amended (line : String) (p : Event)
    (hp : parse_usbmon_line line = some p) :
    (∃ n : Int, p.device = intToDecStr n) ∧
    (∃ a d0 dv ep rest, (pySplit line).get? 3 = some a ∧
      colonSplit a = d0 :: p.bus :: dv :: ep :: rest) := by
  obtain ⟨et, a, stt, d0, b, dv, ep, rest, n, h2, h3, h4, hc, hpy, hd0,
    hET, hB, hD, hEP, hST, hDIR, hDL⟩ := parse_some_inv line p hp
  refine ⟨⟨n, hD⟩, ⟨a, d0, dv, ep, rest, h3, ?_⟩⟩
  rw [hB]
  exact hc

theorem c8_amended_witness :
    (∃ n : Int, c8event.device = intToDecStr n) ∧
    (∃ a d0 dv ep rest, (pySplit c8line).get? 3 = some a ∧
      colonSplit a = d0 :: c8event.bus :: dv :: ep :: rest) :=
  c8_amended c8line c8event (by decide)
